import Mathlib

/-!
Verification development for the sparseml one-shot compression pipeline.

The definitions below are a shallow embedding of the Python sources:
* `src/sparseml/modifiers/obcq/pytorch.py` (`SparseGPTModifierPyTorch`:
  `compressible_layers`, `apply_obcq`, `on_finalize`, `_set_device`), and
* `src/sparseml/pytorch/sparsification/distillation/modifier_per_layer.py`
  (`PerLayerDistillationModifier` and its helper functions).

Python dictionaries are embedded as association lists over `String` keys with
Python's in-place overwrite semantics; exceptions are embedded as `Except`
values (or explicit error constructors); external collaborators (bottom/head
compressors, the per-layer solver) are parameters of the pipeline record,
since the pipeline only threads their returned mappings.
-/

namespace SparseML

/-- Python `dict` lookup `d.get(k)` on an association list: first binding wins
(the insert operation below keeps at most one binding per key alive). -/
def aget {α : Type} : List (String × α) → String → Option α
  | [], _ => none
  | (k', v) :: rest, k => if k = k' then some v else aget rest k

/-- Python `dict` assignment `d[k] = v`: overwrite the first binding of `k` in
place, otherwise append the new binding at the end (Python insertion order). -/
def ainsert {α : Type} : List (String × α) → String → α → List (String × α)
  | [], k, v => [(k, v)]
  | (k', v') :: rest, k, v =>
    if k = k' then (k, v) :: rest else (k', v') :: ainsert rest k v

/-- Python `base.update(upd)`: assign every binding of `upd` into `base`,
later bindings overwriting earlier ones. -/
def aupdate {α : Type} (base upd : List (String × α)) : List (String × α) :=
  upd.foldl (fun acc p => ainsert acc p.1 p.2) base

theorem aget_ainsert_self {α : Type} (m : List (String × α)) (k : String) (v : α) :
    aget (ainsert m k v) k = some v := by
  induction m with
  | nil => simp [ainsert, aget]
  | cons p rest ih =>
    by_cases h : k = p.1
    · simp [ainsert, aget, h]
    · simp [ainsert, aget, h, ih]

theorem aget_ainsert_ne {α : Type} (m : List (String × α)) (k k' : String) (v : α)
    (hne : k' ≠ k) : aget (ainsert m k v) k' = aget m k' := by
  induction m with
  | nil => simp [ainsert, aget, hne]
  | cons p rest ih =>
    by_cases h : k = p.1
    · subst h
      simp [ainsert, aget, hne]
    · by_cases h' : k' = p.1
      · simp [ainsert, aget, h, h']
      · simp [ainsert, aget, h, h', ih]

theorem aget_aupdate_none {α : Type} (base upd : List (String × α)) (k : String)
    (hb : aget base k = none) (hu : aget upd k = none) :
    aget (aupdate base upd) k = none := by
  induction upd generalizing base with
  | nil => simpa [aupdate] using hb
  | cons p rest ih =>
    have hk : ¬ k = p.1 := by
      intro h
      simp [aget, h] at hu
    have hrest : aget rest k = none := by
      simpa [aget, hk] using hu
    have hbase' : aget (ainsert base p.1 p.2) k = none := by
      rw [aget_ainsert_ne base p.1 k p.2 hk]
      exact hb
    simpa [aupdate] using ih (ainsert base p.1 p.2) hbase' hrest

/-! ## OBCQ sequential pipeline (`SparseGPTModifierPyTorch`, obcq/pytorch.py) -/

/-- Values stored in the accumulated-state mapping (`accum_kwargs`). The
pipeline threads these opaquely; only key identity matters to it. -/
inductive Val where
  | nat (n : Nat)
  | bool (b : Bool)
  | str (s : String)
deriving DecidableEq, Repr

/-- The accumulated-state mapping threaded between pipeline stages. -/
abbrev Kwargs := List (String × Val)

/-- One run of the pipeline: the external collaborators of `apply_obcq`.
`bottomExtras` is the `extras` mapping returned by the bottom compressor,
`layerCompress idx accum` is the `layer_kwargs` mapping the layer compressor
for layer `idx` returns given the current accumulated state, and
`headCompress` is the optional head compressor's returned extras. -/
structure ObcqPipeline where
  dataloader : Val
  bottomExtras : Kwargs
  numLayers : Nat
  layerCompress : Nat → Kwargs → Kwargs
  headCompress : Option (Kwargs → Kwargs)

/-- Result of the layer loop: either the final accumulated state together with
the indices of the layers whose `compress` ran (in order), or the missing
`outputs` error with the indices compressed before the exception. -/
inductive LoopRes where
  | ok (accum : Kwargs) (compressed : List Nat)
  | err (compressed : List Nat)
deriving DecidableEq

/-- Step 1 of `apply_obcq` (lines 114-141): for each layer index in order,
raise if `outputs` is absent from the accumulated state, otherwise run the
layer compressor and merge its returned mapping into the accumulated state. -/
def obcqLoop (lc : Nat → Kwargs → Kwargs) : List Nat → Kwargs → LoopRes
  | [], accum => .ok accum []
  | i :: rest, accum =>
    if (aget accum "outputs").isSome then
      let layerKwargs := lc i accum
      match obcqLoop lc rest (aupdate accum layerKwargs) with
      | .ok a d => .ok a (i :: d)
      | .err d => .err (i :: d)
    else .err []

/-- Result of `apply_obcq`: the returned `extras` mapping plus the recorded
trace of compressed layer indices, or the `RuntimeError` raised when the
`outputs` key is missing (the spec's `PipelineStateError`). -/
inductive ObcqResult where
  | ok (extras : Kwargs) (compressed : List Nat)
  | stateError (compressed : List Nat)
deriving DecidableEq

/-- The accumulated state after step 0 of `apply_obcq`:
`accum_kwargs = {"dataloader": dataloader}` updated with the bottom
compressor's extras (lines 98-112). -/
def initAccum (p : ObcqPipeline) : Kwargs :=
  aupdate [("dataloader", p.dataloader)] p.bottomExtras

/-- Embedding of `SparseGPTModifierPyTorch.apply_obcq` (lines 89-149). The
local variable `extras` is bound by the bottom compressor at line 106 and then
rebound only by the head compressor at line 145; the layer loop binds
`layer_kwargs` instead, so the function returns the bottom compressor's extras
whenever no head compressor is configured. -/
def apply_obcq (p : ObcqPipeline) : ObcqResult :=
  match obcqLoop p.layerCompress (List.range p.numLayers) (initAccum p) with
  | .err d => .stateError d
  | .ok accum d =>
    match p.headCompress with
    | some h => .ok (h accum) d
    | none => .ok p.bottomExtras d

/-- Embedding of `SparseGPTModifierPyTorch.compressible_layers` (lines 46-48):
the values of the `get_layers` mapping, in order, with no emptiness check and
no exception of any kind. Layer modules are opaque (`Nat` identifiers). -/
def compressible_layers (getLayersResult : List (String × Nat)) : List Nat :=
  getLayersResult.map (fun p => p.2)

/-- The model-wide runtime flags touched by `on_finalize`: the kv-cache
configuration flag and whether calibration observers are disabled. -/
structure ObcqModelState where
  use_cache : Val
  observers_disabled : Bool
deriving DecidableEq, Repr

/-- Embedding of `SparseGPTModifierPyTorch.on_finalize` (lines 151-161):
disable the observers and set `model.config.use_cache` to
`finalization_kwargs_.get("use_cache", False)`. -/
def on_finalize (finalizationKwargs : Kwargs) (_m : ObcqModelState) : ObcqModelState :=
  { use_cache := (aget finalizationKwargs "use_cache").getD (Val.bool false)
    observers_disabled := true }

/-- Character-list version of Python's `needle in haystack` substring test
(used by `"cuda" in device`). -/
def isPrefixList : List Char → List Char → Bool
  | [], _ => true
  | _ :: _, [] => false
  | a :: as, b :: bs => a = b && isPrefixList as bs

/-- Substring containment: some suffix of the haystack starts with the needle. -/
def containsSub (needle : List Char) : List Char → Bool
  | [] => isPrefixList needle []
  | c :: rest => isPrefixList needle (c :: rest) || containsSub needle rest

/-- Embedding of `SparseGPTModifierPyTorch._set_device` (lines 163-167):
resolve to `"cpu"` when the requested string contains `"cuda"` and CUDA is not
available, otherwise keep the requested string. It never raises. -/
def set_device (device : String) (cudaAvailable : Bool) : String :=
  if containsSub "cuda".toList device.toList && !cudaAvailable then "cpu" else device

/-! ## Per-layer distillation modifier (modifier_per_layer.py) -/

/-- Module type tags; `_DISTILLATION_TYPES` is `[Conv1d, Conv2d, Conv3d,
Linear]`, every other module type is `other`. -/
inductive MType where
  | conv1d | conv2d | conv3d | linear | other
deriving DecidableEq, Repr

/-- A PyTorch module tree: a type tag plus `named_children()` in order. -/
inductive ModuleTree where
  | mk (ty : MType) (children : List (String × ModuleTree))
deriving Repr

/-- Membership test against `_DISTILLATION_TYPES` (lines 39-44). -/
def isDistillationType : MType → Bool
  | .other => false
  | _ => true

/-- Dotted-path naming used in both traversal helpers:
`name + "." + child_name if name != "" else child_name`. -/
def dotName (name childName : String) : String :=
  if name = "" then childName else name ++ "." ++ childName

mutual
/-- Embedding of `_find_layers_by_type` (lines 363-371): record the current
module's dotted name when its type is a distillation type, then recurse into
the named children in order. Returns the keys of `cached_layers` in insertion
order. -/
def find_layers_by_type : ModuleTree → String → List String
  | .mk ty children, name =>
    (if isDistillationType ty then [name] else []) ++
      find_layers_by_type_children children name

/-- Traversal of `named_children()` inside `_find_layers_by_type`. -/
def find_layers_by_type_children : List (String × ModuleTree) → String → List String
  | [], _ => []
  | (cname, child) :: rest, name =>
    find_layers_by_type child (dotName name cname) ++
      find_layers_by_type_children rest name
end

mutual
/-- Embedding of `_find_layers_by_name` (lines 374-383): record the current
module's dotted name when it is in `layer_names`, then recurse into the named
children in order. -/
def find_layers_by_name (layerNames : List String) : ModuleTree → String → List String
  | .mk _ children, name =>
    (if layerNames.contains name then [name] else []) ++
      find_layers_by_name_children layerNames children name

/-- Traversal of `named_children()` inside `_find_layers_by_name`. -/
def find_layers_by_name_children (layerNames : List String) :
    List (String × ModuleTree) → String → List String
  | [], _ => []
  | (cname, child) :: rest, name =>
    find_layers_by_name layerNames child (dotName name cname) ++
      find_layers_by_name_children layerNames rest name
end

/-- A captured tensor: opaque payload values plus a shape. -/
structure Tensor where
  data : List Int
  shape : List Nat
deriving DecidableEq, Repr

/-- A forward-hook handle: which model the hook was registered on (`true` for
the teacher model) and the hooked layer's name. -/
abbrev Handle := Bool × String

/-- The mutable attributes of `PerLayerDistillationModifier` that its
`initialize`/`finalize`/loss methods read and write (lines 101-113). The
lazily created `_projection` list is not modelled: no claim touches the
`project_features` code path. -/
structure DistillState where
  gain : ℚ
  normalize : Bool
  _student_names : Option (List String)
  _teacher_names : Option (List String)
  _student_handles : Option (List Handle)
  _teacher_handles : Option (List Handle)
  _cached_student_output : Option (List (String × Tensor))
  _cached_teacher_output : Option (List (String × Tensor))
  _student_output_shapes : Option (List (String × List Nat))
  _teacher_output_shapes : Option (List (String × List Nat))
deriving DecidableEq, Repr

/-- Embedding of the `teacher_names` property (lines 154-161): the explicit
`_teacher_names` when set, otherwise the `student_names` property (which
returns `_student_names`), otherwise `None`. -/
def teacher_names_prop (st : DistillState) : Option (List String) :=
  match st._teacher_names with
  | some t => some t
  | none =>
    match st._student_names with
    | some s => some s
    | none => none

/-- The `distillation_teacher` argument of `initialize`: a module instance or
a string sentinel. -/
inductive TeacherArg where
  | module (m : ModuleTree)
  | sentinel (s : String)

/-- Errors raised by the modifier: the `ValueError` of `initialize`'s `else`
branch, and the `TypeError`/`AttributeError` class of failures from operating
on a missing attribute (such as iterating `None`). -/
inductive DError where
  | valueError
  | typeError
deriving DecidableEq, Repr

/-- Embedding of `PerLayerDistillationModifier.initialize` (lines 183-248).
In the `isinstance(distillation_teacher, Module)` branch it empties the four
cache mappings, resolves student and teacher layer-name lists (by type
discovery when `student_names is None`, else by explicit name lookup), and
registers one forward hook per resolved layer. Note line 237 of the source:
the teacher-model hook handles are appended to `self._student_handles`, so
`_teacher_handles` remains the empty list. Any non-module argument —
including the documented `"disable"` sentinel — falls to the `else` branch
and raises `ValueError`. -/
def distill_initialize (st : DistillState) (studentModule : ModuleTree)
    (teacher : TeacherArg) : Except DError DistillState :=
  match teacher with
  | .module tm =>
    let cachedStudent :=
      match st._student_names with
      | none => find_layers_by_type studentModule ""
      | some names => find_layers_by_name names studentModule ""
    let cachedTeacher :=
      match st._student_names with
      | none => find_layers_by_type tm ""
      | some _ => find_layers_by_name ((teacher_names_prop st).getD []) tm ""
    .ok { st with
      _student_names :=
        match st._student_names with
        | none => some cachedStudent
        | some names => some names
      _teacher_names :=
        match st._student_names with
        | none => some cachedTeacher
        | some _ => st._teacher_names
      _cached_student_output := some []
      _cached_teacher_output := some []
      _student_output_shapes := some []
      _teacher_output_shapes := some []
      _student_handles :=
        some (cachedStudent.map (fun n => (false, n)) ++
              cachedTeacher.map (fun n => (true, n)))
      _teacher_handles := some [] }
  | .sentinel _ => .error .valueError

/-- Embedding of `PerLayerDistillationModifier.finalize` (lines 250-272). The
source iterates `self.student_handles` and `self.teacher_handles`; no such
attribute or property is defined anywhere in the class or its listed
properties (only `_student_handles`/`_teacher_handles` exist), so we read the
evidently intended underscore attributes. Iterating them fails when they hold
`None` — which is exactly the state a first `finalize` call leaves behind
(lines 269-270). On success all hook handles are removed and the cached
output mappings are released. -/
def distill_finalize (st : DistillState) : Except DError DistillState :=
  match st._student_handles with
  | none => .error .typeError
  | some _ =>
    match st._teacher_handles with
    | none => .error .typeError
    | some _ =>
      .ok { st with
        _student_handles := none
        _teacher_handles := none
        _cached_student_output := none
        _cached_teacher_output := none }

/-- Embedding of the closure built by `_create_cache_output_hook`
(lines 354-360) acting on a forward call's output: the output mapping is
assigned unconditionally (`outputs[layer_name] = out`), while the shape
mapping is assigned only when the layer name is not yet a key
(`if layer_name not in outputs_shape`). -/
def cache_output_hook (layerName : String) (outputs : List (String × Tensor))
    (outputsShape : List (String × List Nat)) (out : Tensor) :
    List (String × Tensor) × List (String × List Nat) :=
  ( ainsert outputs layerName out,
    if (aget outputsShape layerName).isSome then outputsShape
    else ainsert outputsShape layerName out.shape )

/-- Embedding of `torch.mean` over a flattened tensor, with exact rational
arithmetic in place of floats. -/
def tmean (xs : List ℚ) : ℚ := xs.sum / (xs.length : ℚ)

/-- The `output_difference` of lines 292-294: mean squared difference of the
student and teacher outputs. -/
def sqDiffMean (s t : List ℚ) : ℚ :=
  tmean (List.zipWith (fun a b => (a - b) ^ 2) s t)

/-- The `teacher_output_magnitude` of line 297: mean of the squared teacher
output. -/
def teacher_output_magnitude (t : List ℚ) : ℚ :=
  tmean (t.map (fun x => x ^ 2))

/-- One pair's contribution inside `compute_distillation_loss` (lines
280-300), along the `project_features = False` path: the mean squared
difference, divided — when `normalize` is set — by the teacher output
magnitude with no guard of any kind. A zero magnitude makes the float
division produce an inf/nan artifact rather than a number; the embedding
returns `none` in that case and the exact quotient otherwise. -/
def pairLoss (normalize : Bool) (s t : List ℚ) : Option ℚ :=
  let d := sqDiffMean s t
  if normalize then
    let m := teacher_output_magnitude t
    if m = 0 then none else some (d / m)
  else some d

/-- Embedding of `compute_distillation_loss` (lines 274-302) on the paired
captured outputs, `project_features = False`: sum the per-pair differences
starting from `0.0`, an artifact in any pair poisoning the total. -/
def compute_distillation_loss (normalize : Bool)
    (pairs : List (List ℚ × List ℚ)) : Option ℚ :=
  pairs.foldl
    (fun acc p =>
      match acc with
      | none => none
      | some a =>
        match pairLoss normalize p.1 p.2 with
        | none => none
        | some l => some (a + l))
    (some 0)

/-- Embedding of `compute_total_loss` (lines 350-351). -/
def compute_total_loss (st : DistillState) (loss distillationLoss : ℚ) : ℚ :=
  loss + st.gain * distillationLoss

/-! ## Concrete pipeline instances used by witnesses and counterexamples -/

/-- A run whose bottom compressor returns extras without the `outputs` key. -/
def pipeMissingOutputs : ObcqPipeline :=
  { dataloader := .nat 0
    bottomExtras := [("attention_mask", .nat 1)]
    numLayers := 1
    layerCompress := fun _ _ => []
    headCompress := none }

/-- A one-layer run with no head compressor whose single layer stage returns
a partial update distinct from the bottom compressor's extras. -/
def pipeOneLayerNoHead : ObcqPipeline :=
  { dataloader := .nat 0
    bottomExtras := [("outputs", .nat 1)]
    numLayers := 1
    layerCompress := fun _ _ => [("layer_result", .nat 7)]
    headCompress := none }

/-- A run whose layer count comes from an empty `get_layers` mapping. -/
def pipeEmptyLayers : ObcqPipeline :=
  { dataloader := .nat 0
    bottomExtras := [("outputs", .nat 2)]
    numLayers := (compressible_layers []).length
    layerCompress := fun _ _ => []
    headCompress := none }

/-! ## Claims -/

theorem aget_initAccum_outputs (p : ObcqPipeline)
    (h : aget p.bottomExtras "outputs" = none) :
    aget (initAccum p) "outputs" = none := by
  apply aget_aupdate_none _ _ _ _ h
  simp [aget]

/-- C1: if the extras returned by the bottom compressor do not contain the
key `outputs`, then `apply_obcq` raises the missing-state error (Python
`RuntimeError`, the spec's `PipelineStateError`) before any layer is
compressed, for every run with at least one compressible layer. -/
theorem apply_obcq_missing_outputs_fails_first (p : ObcqPipeline)
    (h : aget p.bottomExtras "outputs" = none) (hn : 0 < p.numLayers) :
    apply_obcq p = .stateError [] := by
  have haccum : aget (initAccum p) "outputs" = none := aget_initAccum_outputs p h
  obtain ⟨n, hn'⟩ := Nat.exists_eq_succ_of_ne_zero (Nat.pos_iff_ne_zero.mp hn)
  unfold apply_obcq
  rw [hn', List.range_succ_eq_map]
  simp [obcqLoop, haccum]

/-- Witness for C1: a concrete one-layer run whose bottom extras hold only an
attention mask raises the missing-`outputs` error with no layer compressed. -/
theorem apply_obcq_missing_outputs_fails_first_witness :
    apply_obcq pipeMissingOutputs = .stateError [] :=
  apply_obcq_missing_outputs_fails_first pipeMissingOutputs (by decide) (by decide)

/-- C2 counterexample: in a concrete one-layer run with no head compressor,
the single layer stage returns `{"layer_result": 7}`, yet the finalization
payload returned by `apply_obcq` is the bottom compressor's extras
`{"outputs": 1}`, not that last layer-stage update. -/
theorem apply_obcq_payload_not_last_layer_update :
    pipeOneLayerNoHead.layerCompress 0 (initAccum pipeOneLayerNoHead) =
      [("layer_result", Val.nat 7)] ∧
    apply_obcq pipeOneLayerNoHead = .ok [("outputs", Val.nat 1)] [0] ∧
    ([("outputs", Val.nat 1)] : Kwargs) ≠ [("layer_result", Val.nat 7)] :=
  ⟨rfl, by decide, by decide⟩

/-- C2 as amended: when the layer loop completes, the finalization payload of
`apply_obcq` is the head compressor's returned extras when one is configured,
and otherwise the bottom compressor's extras (not the last layer stage's
partial update). -/
theorem apply_obcq_payload_source (p : ObcqPipeline) (a : Kwargs) (d : List Nat)
    (hok : obcqLoop p.layerCompress (List.range p.numLayers) (initAccum p) = .ok a d) :
    apply_obcq p =
      .ok (match p.headCompress with | some h => h a | none => p.bottomExtras) d := by
  unfold apply_obcq
  rw [hok]
  cases p.headCompress <;> rfl

/-- Witness for the amended C2: on the concrete one-layer run without a head
compressor the payload is the bottom compressor's extras. -/
theorem apply_obcq_payload_source_witness :
    apply_obcq pipeOneLayerNoHead = .ok [("outputs", Val.nat 1)] [0] :=
  apply_obcq_payload_source pipeOneLayerNoHead
    [("dataloader", Val.nat 0), ("outputs", Val.nat 1), ("layer_result", Val.nat 7)]
    [0] (by decide)

/-- C3 counterexample: with an empty `get_layers` mapping,
`compressible_layers` returns the empty list and raises nothing, and the
pipeline proceeds: a concrete run over those zero layers completes
successfully instead of failing with a `ConfigurationError`. -/
theorem compressible_layers_empty_proceeds :
    compressible_layers [] = [] ∧
    apply_obcq pipeEmptyLayers = .ok [("outputs", Val.nat 2)] [] :=
  ⟨rfl, by decide⟩

/-- C3 as amended: when the architecture-specific selector matches no layers,
`compressible_layers` yields the empty list, no error is raised, and
`apply_obcq` proceeds with zero layer stages, returning the bottom
compressor's extras (for a run with no head compressor). -/
theorem apply_obcq_empty_layers_proceeds (p : ObcqPipeline)
    (hn : p.numLayers = (compressible_layers []).length)
    (hh : p.headCompress = none) :
    apply_obcq p = .ok p.bottomExtras [] := by
  have h0 : p.numLayers = 0 := by simpa [compressible_layers] using hn
  unfold apply_obcq
  rw [h0]
  simp [obcqLoop, hh]

/-- Witness for the amended C3 at the concrete empty-selector run. -/
theorem apply_obcq_empty_layers_proceeds_witness :
    apply_obcq pipeEmptyLayers = .ok pipeEmptyLayers.bottomExtras [] :=
  apply_obcq_empty_layers_proceeds pipeEmptyLayers rfl rfl

/-- C4: `on_finalize` applied twice with the same finalization payload leaves
the model in the same state as applying it once, and the restored cache flag
is the payload's `use_cache` value, defaulting to `False` when that key was
never set. -/
theorem on_finalize_idempotent_and_restores_flag (fk : Kwargs) (m : ObcqModelState) :
    on_finalize fk (on_finalize fk m) = on_finalize fk m ∧
    (∀ v, aget fk "use_cache" = some v → (on_finalize fk m).use_cache = v) ∧
    (aget fk "use_cache" = none → (on_finalize fk m).use_cache = Val.bool false) := by
  refine ⟨rfl, ?_, ?_⟩
  · intro v hv
    simp [on_finalize, hv]
  · intro hv
    simp [on_finalize, hv]

/-- Witness for C4 at a concrete payload carrying `use_cache = True` and a
concrete payload lacking the key. -/
theorem on_finalize_idempotent_and_restores_flag_witness :
    (on_finalize [("use_cache", Val.bool true)] ⟨Val.bool false, false⟩).use_cache =
      Val.bool true ∧
    (on_finalize [] ⟨Val.bool true, false⟩).use_cache = Val.bool false :=
  ⟨(on_finalize_idempotent_and_restores_flag
      [("use_cache", Val.bool true)] ⟨Val.bool false, false⟩).2.1 _ (by decide),
   (on_finalize_idempotent_and_restores_flag
      [] ⟨Val.bool true, false⟩).2.2 (by decide)⟩

/-- C5: `_set_device` resolves to `"cpu"` whenever the requested string
contains `"cuda"` and no CUDA accelerator is available, and otherwise keeps
the requested device string unchanged; it is total, so initialization
succeeds rather than failing. -/
theorem set_device_cuda_fallback (device : String) (cudaAvailable : Bool) :
    (containsSub "cuda".toList device.toList = true → cudaAvailable = false →
      set_device device cudaAvailable = "cpu") ∧
    (containsSub "cuda".toList device.toList = false ∨ cudaAvailable = true →
      set_device device cudaAvailable = device) := by
  constructor
  · intro h1 h2
    unfold set_device
    rw [h1, h2]
    rfl
  · intro h
    rcases h with h | h
    · unfold set_device
      rw [h]
      rfl
    · unfold set_device
      rw [h]
      simp

/-- Witness for C5: `"cuda:0"` without an accelerator resolves to `"cpu"`,
and with an accelerator it stays `"cuda:0"`. -/
theorem set_device_cuda_fallback_witness :
    set_device "cuda:0" false = "cpu" ∧ set_device "cuda:0" true = "cuda:0" :=
  ⟨(set_device_cuda_fallback "cuda:0" false).1 (by decide) rfl,
   (set_device_cuda_fallback "cuda:0" true).2 (Or.inr rfl)⟩

/-! ## Concrete distillation states and modules for witnesses -/

/-- A freshly constructed modifier state (the `__init__` defaults of lines
101-113, with `gain = 1` and `normalize = True`). -/
def distillState0 : DistillState :=
  { gain := 1
    normalize := true
    _student_names := none
    _teacher_names := none
    _student_handles := none
    _teacher_handles := none
    _cached_student_output := none
    _cached_teacher_output := none
    _student_output_shapes := none
    _teacher_output_shapes := none }

/-- A tiny student/teacher module: a container holding one linear layer. -/
def demoModule : ModuleTree := .mk .other [("fc", .mk .linear [])]

/-- A state as `initialize` leaves it: hooks registered, caches empty. -/
def distillStateReady : DistillState :=
  { distillState0 with
    _student_names := some ["fc"]
    _teacher_names := some ["fc"]
    _student_handles := some [(false, "fc"), (true, "fc")]
    _teacher_handles := some []
    _cached_student_output := some []
    _cached_teacher_output := some []
    _student_output_shapes := some []
    _teacher_output_shapes := some [] }

/-- The state a successful `finalize` leaves behind. -/
def distillStateDone : DistillState :=
  { distillStateReady with
    _student_handles := none
    _teacher_handles := none
    _cached_student_output := none
    _cached_teacher_output := none }

/-- A first captured output tensor. -/
def tensorA : Tensor := { data := [1, 2], shape := [2] }

/-- A second captured output tensor with a different shape. -/
def tensorB : Tensor := { data := [1, 2, 3], shape := [3] }

/-- The cache mappings after one forward call on layer `"fc"`. -/
def hookOnce : List (String × Tensor) × List (String × List Nat) :=
  cache_output_hook "fc" [] [] tensorA

/-- The cache mappings after a second forward call with a new shape. -/
def hookTwice : List (String × Tensor) × List (String × List Nat) :=
  cache_output_hook "fc" hookOnce.1 hookOnce.2 tensorB

/-- C6: initializing the modifier with the documented `"disable"` sentinel
does not leave it inert — the `isinstance(distillation_teacher, Module)`
check sends every non-module argument, including `"disable"`, to the `else`
branch, which raises `ValueError` (lines 243-248), contradicting the
docstring's promise that `"disable"` disables distillation. -/
theorem distill_initialize_disable_raises :
    distill_initialize distillState0 demoModule (.sentinel "disable") =
      .error .valueError := rfl

/-- C7: `finalize` is not idempotent: after any successful `finalize` call
the handle attributes hold `None` (lines 269-270), so a second call fails
while iterating them instead of being a safe no-op. -/
theorem distill_finalize_second_call_raises (st st' : DistillState)
    (h : distill_finalize st = .ok st') :
    distill_finalize st' = .error .typeError := by
  unfold distill_finalize at h ⊢
  cases hs : st._student_handles with
  | none =>
    rw [hs] at h
    simp at h
  | some l =>
    cases ht : st._teacher_handles with
    | none =>
      rw [hs, ht] at h
      simp at h
    | some l' =>
      rw [hs, ht] at h
      have hst' : st' =
          { st with
            _student_handles := none
            _teacher_handles := none
            _cached_student_output := none
            _cached_teacher_output := none } := by
        injection h with h'
        exact h'.symm
      rw [hst']

/-- Witness for C7: on the concrete initialized state, the first `finalize`
succeeds and clears the hook and cache state, and the second raises. -/
theorem distill_finalize_second_call_raises_witness :
    distill_finalize distillStateReady = .ok distillStateDone ∧
    distill_finalize distillStateDone = .error .typeError :=
  ⟨rfl, distill_finalize_second_call_raises distillStateReady distillStateDone rfl⟩

/-- C8 counterexample: with `normalize = True`, a student output `[1]` and an
all-zero teacher output `[0]`, the mean squared difference is the
well-defined value `1`, yet the divisor `teacher_output_magnitude` is exactly
`0` and the loss computation yields an unguarded division-by-zero artifact
(`none`): no numerical floor exists in the code. -/
theorem compute_distillation_loss_zero_teacher_artifact :
    sqDiffMean [1] [0] = 1 ∧
    teacher_output_magnitude [0] = 0 ∧
    compute_distillation_loss true [([1], [0])] = none := by
  have hmag : teacher_output_magnitude [0] = 0 := by
    norm_num [teacher_output_magnitude, tmean]
  refine ⟨by norm_num [sqDiffMean, tmean], hmag, ?_⟩
  simp [compute_distillation_loss, pairLoss, hmag]

/-- C8 as amended: with `normalize = True`, `compute_distillation_loss`
divides each pair's mean squared difference directly by the mean squared
teacher magnitude with no guard: a zero magnitude produces the division
artifact, and otherwise the result is the bare quotient with no floor
applied. -/
theorem compute_distillation_loss_no_guard (s t : List ℚ) :
    (teacher_output_magnitude t = 0 →
      compute_distillation_loss true [(s, t)] = none) ∧
    (teacher_output_magnitude t ≠ 0 →
      compute_distillation_loss true [(s, t)] =
        some (sqDiffMean s t / teacher_output_magnitude t)) := by
  constructor
  · intro h
    simp [compute_distillation_loss, pairLoss, h]
  · intro h
    simp [compute_distillation_loss, pairLoss, h]

/-- Witness for the amended C8: a two-element all-zero teacher output makes
the loss computation collapse into the division artifact. -/
theorem compute_distillation_loss_no_guard_witness :
    compute_distillation_loss true [([3], [0, 0])] = none :=
  (compute_distillation_loss_no_guard [3] [0, 0]).1
    (by norm_num [teacher_output_magnitude, tmean])

/-- C9 counterexample: after two forward calls on layer `"fc"` whose outputs
have different shapes, the output cache holds the second tensor but the shape
cache still holds the first call's shape — the shape is not overwritten on
every forward call as claimed. -/
theorem cache_output_hook_shape_not_overwritten :
    aget hookTwice.1 "fc" = some tensorB ∧
    aget hookTwice.2 "fc" = some tensorA.shape ∧
    aget hookTwice.2 "fc" ≠ some tensorB.shape := by
  refine ⟨by decide, by decide, by decide⟩

/-- C9 as amended: each forward-capture hook call overwrites the stored
output tensor for its layer, but records the output shape only on the first
call for that layer and leaves it untouched on later calls. -/
theorem cache_output_hook_overwrites_output_keeps_first_shape
    (layerName : String) (outputs : List (String × Tensor))
    (shapes : List (String × List Nat)) (out : Tensor) :
    aget (cache_output_hook layerName outputs shapes out).1 layerName = some out ∧
    (∀ sh, aget shapes layerName = some sh →
      aget (cache_output_hook layerName outputs shapes out).2 layerName = some sh) ∧
    (aget shapes layerName = none →
      aget (cache_output_hook layerName outputs shapes out).2 layerName =
        some out.shape) := by
  refine ⟨aget_ainsert_self _ _ _, ?_, ?_⟩
  · intro sh hsh
    simp [cache_output_hook, hsh]
  · intro hsh
    simp [cache_output_hook, hsh, aget_ainsert_self]

/-- Witness for the amended C9 at a concrete pre-populated shape cache. -/
theorem cache_output_hook_overwrites_output_keeps_first_shape_witness :
    aget (cache_output_hook "fc" [] [("fc", [2])] tensorB).2 "fc" = some [2] :=
  (cache_output_hook_overwrites_output_keeps_first_shape
    "fc" [] [("fc", [2])] tensorB).2.1 [2] (by decide)

/-- C10: when `_teacher_names` was not provided but `student_names` was, the
`teacher_names` property returns the student names list. -/
theorem teacher_names_defaults_to_student_names (st : DistillState)
    (l : List String) (h1 : st._teacher_names = none)
    (h2 : st._student_names = some l) :
    teacher_names_prop st = some l := by
  unfold teacher_names_prop
  rw [h1, h2]

/-- Witness for C10 at a concrete state with explicit student names only. -/
theorem teacher_names_defaults_to_student_names_witness :
    teacher_names_prop { distillState0 with _student_names := some ["fc", "gc"] } =
      some ["fc", "gc"] :=
  teacher_names_defaults_to_student_names _ _ rfl rfl

end SparseML
